import Mathlib

/-!
# Verification of the `LNWallet` worker (electrum-ltc, `lnworker.py`)

A shallow embedding of the invoice store, preimage store, channel store,
short-channel-id assignment, routing-hint calculation, invoice checking,
route construction and the sweep (`try_redeem`) logic of
`src/electrum_ltc/lnworker.py`, together with theorems settling the
specification claims about those operations.

Modelling conventions:
* Python byte strings (public keys, payment hashes, channel ids) are
  modelled as `Nat` (hex encoding of bytes is injective, so keying maps
  by the value itself is faithful).
* Python `dict`s are association lists; assignment replaces the binding
  of an existing key in place.
* Exceptions are `Except String` (or a dedicated error inductive);
  a raised exception aborts the function without rolling back state, so
  stateful operations return the state alongside the `Except` result.
* External collaborators declared out of scope by the module
  (`LNPathFinder.find_path_for_payment` / `create_route_from_path`,
  `ChannelDB` policy lookups, `is_route_sane_to_use`, `sha256`) are
  abstract function parameters; the theorems quantify over them.
* Python truthiness of optional integers: `None` and `0` are both falsy;
  where the code tests truthiness we test `≠ 0` / `Option.getD 0 ≠ 0`.
-/

namespace ElectrumLN

/-- Payment direction constants `SENT` / `RECEIVED` of `lnutil`. -/
inductive LNDirection
  | SENT
  | RECEIVED
deriving DecidableEq, Repr

/-- Invoice status constants `PR_*` of `util`. -/
inductive PRStatus
  | UNPAID
  | EXPIRED
  | UNKNOWN
  | PAID
  | INFLIGHT
deriving DecidableEq, Repr

/-- Channel lifecycle states used by `lnworker.py` (`get_state()` strings). -/
inductive ChanState
  | OPENING
  | OPEN
  | DISCONNECTED
  | CLOSED
deriving DecidableEq, Repr

/-- Lookup in an association list (Python `dict.get` / `dict[k]`). -/
def alookup {κ α : Type} [DecidableEq κ] : List (κ × α) → κ → Option α
  | [], _ => none
  | (k, v) :: rest, key => if k = key then some v else alookup rest key

/-- Assignment `d[k] = v` on a Python dict: replace the existing binding
of `k` if present, else append a fresh one. -/
def ainsert {κ α : Type} [DecidableEq κ] : List (κ × α) → κ → α → List (κ × α)
  | [], key, v => [(key, v)]
  | (k, w) :: rest, key, v =>
    if k = key then (key, v) :: rest else (k, w) :: ainsert rest key v

/-- Deletion `del d[k]` on a Python dict (for a present key). -/
def aerase {κ α : Type} [DecidableEq κ] : List (κ × α) → κ → List (κ × α)
  | [], _ => []
  | (k, w) :: rest, key =>
    if k = key then rest else (k, w) :: aerase rest key

/-! ## Invoice store (`lightning_invoices2`) -/

/-- The stored value of an `InvoiceInfo` record: `(amount, direction, status)`,
keyed by the hex payment hash. -/
structure InvoiceInfoR where
  amount : Option Nat
  direction : LNDirection
  status : PRStatus
deriving DecidableEq, Repr

/-- The in-memory `self.invoices` map, keyed by payment hash. -/
abbrev InvStore := List (Nat × InvoiceInfoR)

/-- `LNWallet.get_invoice_status`: status of a stored invoice, or
`PR_UNKNOWN` when `get_invoice_info` raises `UnknownPaymentHash`. -/
def get_invoice_status (inv : InvStore) (payment_hash : Nat) : PRStatus :=
  match alookup inv payment_hash with
  | some info => info.status
  | none => PRStatus.UNKNOWN

/-- `LNWallet.save_invoice_info`: store
`(info.amount, info.direction, info.status)` under the payment hash. -/
def save_invoice_info (inv : InvStore) (payment_hash : Nat) (info : InvoiceInfoR) : InvStore :=
  ainsert inv payment_hash info

/-- The `payment_received` callback payload fired by `set_invoice_status`. -/
structure PaymentNotice where
  payment_hash : Nat
deriving DecidableEq, Repr

/-- `LNWallet.set_invoice_status`: look the invoice up (silent no-op on
`UnknownPaymentHash`), replace its status, persist, and fire
`payment_received` when the updated record has direction `RECEIVED` and
status `PAID`. Returns the updated store and the optional notification. -/
def set_invoice_status (inv : InvStore) (payment_hash : Nat) (status : PRStatus) :
    InvStore × Option PaymentNotice :=
  match alookup inv payment_hash with
  | none => (inv, none)
  | some info =>
    let info2 : InvoiceInfoR := { info with status := status }
    let inv2 := save_invoice_info inv payment_hash info2
    if info2.direction = LNDirection.RECEIVED ∧ info2.status = PRStatus.PAID then
      (inv2, some ⟨payment_hash⟩)
    else
      (inv2, none)

/-- Worker state relevant to `delete_invoice`: the `self.invoices` map plus
the log of `storage.put` writes performed. -/
structure InvWorkerState where
  invoices : InvStore
  storage_writes : List (String × InvStore)
deriving DecidableEq, Repr

/-- `LNWallet.delete_invoice`: `del self.invoices[key]`; a `KeyError`
(missing key) is caught and the function returns with no storage write.
On success the map (under key `lightning_invoices`) is written back. -/
def delete_invoice (st : InvWorkerState) (payment_hash_hex : Nat) : InvWorkerState :=
  match alookup st.invoices payment_hash_hex with
  | none => st
  | some _ =>
    let inv2 := aerase st.invoices payment_hash_hex
    { invoices := inv2
      storage_writes := st.storage_writes ++ [("lightning_invoices", inv2)] }

/-! ## Preimage store (`lightning_preimages`) -/

/-- Byte strings, as lists of byte values. -/
abbrev Bytes := List Nat

/-- The `self.preimages` map: payment hash ↦ preimage. -/
abbrev PreimageStore := List (Bytes × Bytes)

/-- `LNWallet.save_preimage`: `assert sha256(preimage) == payment_hash`,
then store the pair and persist. The failed assertion raises, leaving the
store untouched. `sha256` (from `crypto`) is an abstract parameter. -/
def save_preimage (sha256 : Bytes → Bytes) (store : PreimageStore)
    (payment_hash preimage : Bytes) : Except String PreimageStore :=
  if sha256 preimage = payment_hash then
    Except.ok (ainsert store payment_hash preimage)
  else
    Except.error "AssertionError"

/-- The preimage-store invariant: every stored pair hashes correctly. -/
def preimage_invariant (sha256 : Bytes → Bytes) (store : PreimageStore) : Prop :=
  ∀ p ∈ store, sha256 p.2 = p.1

/-! ## Channel store -/

/-- `ShortChannelID.from_components(block_height, tx_pos, output_index)`
(from `lnutil`, out of scope): the 8-byte id packs the three components
big-endian, which is injective for in-range values, so we model the id as
the component triple itself. -/
structure SCIDR where
  block_height : Nat
  tx_pos : Nat
  output_index : Nat
deriving DecidableEq, Repr

/-- The remote-side channel config fields that `save_channel` inspects. -/
structure RemoteConfigR where
  next_per_commitment_point : Nat
  current_per_commitment_point : Nat
deriving DecidableEq, Repr

/-- The attributes of the opaque `Channel` object that the verified
operations read or write: identity, remote config, lifecycle state, the
(predicted) short channel id, the funding constraints and outpoint index,
and the remote balance in msat. -/
structure ChannelR where
  channel_id : Nat
  node_id : Nat
  remote_config : RemoteConfigR
  state : ChanState
  short_channel_id : Option SCIDR
  short_channel_id_predicted : Option SCIDR
  funding_txn_minimum_depth : Nat
  funding_output_index : Nat
  balance_remote_msat : Nat
deriving DecidableEq, Repr

/-- Worker state relevant to the channel store: the in-memory
`self.channels` map keyed by `channel_id`, and the serialized list most
recently written under the storage key `channels` (`Channel.serialize` is
out of scope and modelled as the identity). -/
structure ChanWorkerState where
  channels : List (Nat × ChannelR)
  storage_channels : List ChannelR
deriving DecidableEq, Repr

/-- `LNWallet.save_channels`: serialize every channel and write the list. -/
def save_channels (st : ChanWorkerState) : ChanWorkerState :=
  { st with storage_channels := st.channels.map Prod.snd }

/-- `LNWallet.save_channel`: raise when the remote config has
`next_per_commitment_point == current_per_commitment_point`; otherwise
insert/replace the channel in the map and persist the full list.
The raised exception leaves the state untouched (the check precedes every
mutation), so the state is returned alongside the `Except` result. -/
def save_channel (st : ChanWorkerState) (chan : ChannelR) :
    Except String Unit × ChanWorkerState :=
  if chan.remote_config.next_per_commitment_point
      = chan.remote_config.current_per_commitment_point then
    (Except.error
       "Tried to save channel with next_point == current_point, this should not happen", st)
  else
    (Except.ok (),
     save_channels { st with channels := ainsert st.channels chan.channel_id chan })

/-! ## Short-channel-id assignment -/

/-- The watcher data `save_short_chan_id` reads about the funding tx:
`get_tx_height(txid).conf` and `get_txpos(txid) = (block_height, tx_pos)`
(`tx_pos` is `-1` when the position is unknown, hence `Int`). -/
structure WatcherView where
  conf : Nat
  block_height : Nat
  tx_pos : Int
deriving DecidableEq, Repr

/-- The SCID predicted from
`(block_height, tx_pos, funding_outpoint.output_index)`. -/
def predicted_scid (w : WatcherView) (chan : ChannelR) : SCIDR :=
  { block_height := w.block_height
    tx_pos := w.tx_pos.toNat
    output_index := chan.funding_output_index }

/-- `LNWallet.save_short_chan_id`: if the funding tx has `conf > 0`,
assert `tx_pos >= 0` and record the predicted SCID; if additionally
`conf >= funding_txn_minimum_depth > 0` (Python chained comparison),
commit the SCID and persist via `save_channel`. Returns the updated
channel and worker state, plus whether the SCID was committed and the
channel persisted. -/
def save_short_chan_id (w : WatcherView) (st : ChanWorkerState) (chan : ChannelR) :
    Except String (ChannelR × ChanWorkerState × Bool) :=
  let step1 : Except String ChannelR :=
    if 0 < w.conf then
      if 0 ≤ w.tx_pos then
        Except.ok { chan with short_channel_id_predicted := some (predicted_scid w chan) }
      else
        Except.error "AssertionError: tx_pos >= 0"
    else
      Except.ok chan
  match step1 with
  | Except.error e => Except.error e
  | Except.ok chan1 =>
    if chan.funding_txn_minimum_depth ≤ w.conf ∧ 0 < chan.funding_txn_minimum_depth then
      let chan2 := { chan1 with short_channel_id := chan1.short_channel_id_predicted }
      match save_channel st chan2 with
      | (Except.error e, _) => Except.error e
      | (Except.ok _, st2) => Except.ok (chan2, st2, true)
    else
      Except.ok (chan1, st, false)

/-- The per-channel step of `on_network_update` that guards SCID
assignment: `save_short_chan_id` is attempted only while
`chan.short_channel_id is None`. -/
def scid_update_step (w : WatcherView) (st : ChanWorkerState) (chan : ChannelR) :
    Except String (ChannelR × ChanWorkerState) :=
  if chan.short_channel_id = none then
    match save_short_chan_id w st chan with
    | Except.error e => Except.error e
    | Except.ok (chan1, st1, _) => Except.ok (chan1, st1)
  else
    Except.ok (chan, st)

/-- The channel record after `save_short_chan_id` commits: the predicted
SCID is recorded and copied into `short_channel_id`. -/
def committed_chan (w : WatcherView) (chan : ChannelR) : ChannelR :=
  { chan with
    short_channel_id_predicted := some (predicted_scid w chan)
    short_channel_id := some (predicted_scid w chan) }

/-- The channel record after `save_short_chan_id` records only the
predicted SCID (funding mined but not yet deep enough). -/
def predicted_chan (w : WatcherView) (chan : ChannelR) : ChannelR :=
  { chan with short_channel_id_predicted := some (predicted_scid w chan) }

/-- The worker state after `save_short_chan_id` commits and persists. -/
def committed_state (w : WatcherView) (st : ChanWorkerState) (chan : ChannelR) :
    ChanWorkerState :=
  save_channels
    { st with channels := ainsert st.channels chan.channel_id (committed_chan w chan) }

/-! ## Routing hints for invoices -/

/-- A routing policy record as returned by the channel DB
(`get_policy_for_node` / `get_routing_policy_for_channel`). -/
structure PolicyR where
  fee_base_msat : Nat
  fee_proportional_millionths : Nat
  cltv_expiry_delta : Nat
deriving DecidableEq, Repr

/-- The channel-info record of the channel DB; only its
`short_channel_id` field is read (for the policy lookup). -/
structure ChannelInfoR where
  short_channel_id : SCIDR
deriving DecidableEq, Repr

/-- The two channel-DB lookups used by `_calc_routing_hints_for_invoice`
(`ChannelDB` is out of scope; both lookups are abstract). -/
structure ChannelDBView where
  get_channel_info : SCIDR → Option ChannelInfoR
  get_policy_for_node : SCIDR → Nat → Option PolicyR

/-- One BOLT-11 `('r', [(node_id, scid, fee_base_msat, fee_prop, cltv_delta)])`
routing hint (the singleton list is implicit). -/
structure RoutingHint where
  node_id : Nat
  short_channel_id : SCIDR
  fee_base_msat : Nat
  fee_proportional_millionths : Nat
  cltv_expiry_delta : Nat
deriving DecidableEq, Repr

/-- The hint emitted for one channel: fee/expiry fields come from the
channel DB policy when `get_channel_info` and `get_policy_for_node` both
succeed, else the deliberate fallback `(0, 0, 1)`. -/
def hint_for_channel (db : ChannelDBView) (chan : ChannelR) (chan_id : SCIDR) : RoutingHint :=
  let fields : Nat × Nat × Nat :=
    match db.get_channel_info chan_id with
    | none => (0, 0, 1)
    | some info =>
      match db.get_policy_for_node info.short_channel_id chan.node_id with
      | none => (0, 0, 1)
      | some policy =>
        (policy.fee_base_msat, policy.fee_proportional_millionths, policy.cltv_expiry_delta)
  { node_id := chan.node_id
    short_channel_id := chan_id
    fee_base_msat := fields.1
    fee_proportional_millionths := fields.2.1
    cltv_expiry_delta := fields.2.2 }

/-- The balance test of `_calc_routing_hints_for_invoice`:
`amount_sat and chan.balance(REMOTE) // 1000 < amount_sat`
(Python truthiness: `None` and `0` skip the test). -/
def insufficient_balance (amount_sat : Option Nat) (chan : ChannelR) : Bool :=
  match amount_sat with
  | some a => decide (a ≠ 0) && decide (chan.balance_remote_msat / 1000 < a)
  | none => false

/-- `LNWallet._calc_routing_hints_for_invoice`: walk the channel list;
skip channels not in state `OPEN`; skip channels with insufficient remote
balance; `assert isinstance(chan_id, bytes)` fails when the channel has no
`short_channel_id`; otherwise emit one hint per remaining channel, in
order. -/
def calc_routing_hints_for_invoice (db : ChannelDBView) (amount_sat : Option Nat) :
    List ChannelR → Except String (List RoutingHint)
  | [] => Except.ok []
  | chan :: rest =>
    if chan.state ≠ ChanState.OPEN then
      calc_routing_hints_for_invoice db amount_sat rest
    else if insufficient_balance amount_sat chan then
      calc_routing_hints_for_invoice db amount_sat rest
    else
      match chan.short_channel_id with
      | none => Except.error "AssertionError: chan_id is not bytes"
      | some chan_id =>
        match calc_routing_hints_for_invoice db amount_sat rest with
        | Except.error e => Except.error e
        | Except.ok hints => Except.ok (hint_for_channel db chan chan_id :: hints)

/-- The spec-side characterisation of which channels receive a hint: state
`OPEN`, and — when an amount is given — remote balance `// 1000` at least
that amount. -/
def hint_pred (amount_sat : Option Nat) (chan : ChannelR) : Bool :=
  decide (chan.state = ChanState.OPEN) &&
    (match amount_sat with
     | some a => decide (a ≤ chan.balance_remote_msat / 1000)
     | none => true)

/-! ## Invoice checking -/

/-- The decoded-invoice (`LnAddr`) fields read by `_check_invoice` and
`_pay`. Amounts are in satoshi: the code stores a `Decimal` amount in
coin units and converts with the constant factor `COIN` (and `* 1000` for
msat), a bijection on the represented values, so the satoshi integer is
kept directly. -/
structure LnAddrV where
  is_expired : Bool
  amount : Option Nat
  min_final_cltv_expiry : Nat
deriving DecidableEq, Repr

/-- The amount after the caller override in `_check_invoice`:
`if amount_sat: addr.amount = Decimal(amount_sat) / COIN` — the override
applies only to a truthy (non-`None`, non-zero) caller amount. -/
def substituted_amount (addr : LnAddrV) (amount_sat : Option Nat) : Option Nat :=
  if amount_sat.getD 0 ≠ 0 then amount_sat else addr.amount

/-- `LNWallet._check_invoice`: raise `InvoiceError` on an expired invoice;
substitute a truthy caller-supplied amount; raise on a missing amount;
raise when `min_final_cltv_expiry > 60 * 144`; otherwise return the
(possibly amount-substituted) decoded address. -/
def check_invoice (addr : LnAddrV) (amount_sat : Option Nat) : Except String LnAddrV :=
  if addr.is_expired then
    Except.error "This invoice has expired"
  else
    let addr2 : LnAddrV := { addr with amount := substituted_amount addr amount_sat }
    if addr2.amount = none then
      Except.error "Missing amount"
    else if 60 * 144 < addr2.min_final_cltv_expiry then
      Except.error "Invoice wants us to risk locking funds for unreasonably long."
    else
      Except.ok addr2

/-! ## Route construction from an invoice -/

/-- One edge of a route: `RouteEdge(node_id, short_channel_id, fee_base_msat,
fee_proportional_millionths, cltv_expiry_delta)`. The raw 8-byte SCID of a
hint is kept as a `Nat` (the `ShortChannelID` wrapper adds no data). -/
structure RouteEdge where
  node_id : Nat
  short_channel_id : Nat
  fee_base_msat : Nat
  fee_proportional_millionths : Nat
  cltv_expiry_delta : Nat
deriving DecidableEq, Repr

/-- One entry of a BOLT-11 private route (`r` tag):
`(pubkey, short_channel_id, fee_base_msat, fee_proportional_millionths,
cltv_expiry_delta)`. -/
structure HintEdge where
  node_id : Nat
  short_channel_id : Nat
  fee_base_msat : Nat
  fee_proportional_millionths : Nat
  cltv_expiry_delta : Nat
deriving DecidableEq, Repr

/-- The edge-append loop of `_create_route_from_invoice`: walk the zip of
the shifted node list (each hint edge's destination is the next hop's
pubkey, the last being the invoice payee) with the hint edges; a routing
policy stored in the channel DB for `(prev_node, scid)` overrides the
hint's published fee/expiry fields. -/
def append_private_hops (db : Nat → Nat → Option PolicyR) :
    Nat → List Nat → List HintEdge → List RouteEdge
  | _, [], _ => []
  | _, _ :: _, [] => []
  | prev_node, node_pk :: nodes, e :: es =>
    let fields : Nat × Nat × Nat :=
      match db prev_node e.short_channel_id with
      | some policy =>
        (policy.fee_base_msat, policy.fee_proportional_millionths, policy.cltv_expiry_delta)
      | none =>
        (e.fee_base_msat, e.fee_proportional_millionths, e.cltv_expiry_delta)
    { node_id := node_pk
      short_channel_id := e.short_channel_id
      fee_base_msat := fields.1
      fee_proportional_millionths := fields.2.1
      cltv_expiry_delta := fields.2.2 } :: append_private_hops db node_pk nodes es

/-- The route candidate built from one private-route hint: skip empty
hints and hints longer than `NUM_MAX_EDGES_IN_PAYMENT_PATH` (`max_edges`);
find a path from us to the hint's border node (`find_route` merges the
out-of-scope `find_path_for_payment` and `create_route_from_path`;
`none` covers a falsy path); append the private hops. -/
def build_hint_route (find_route : Nat → Option (List RouteEdge))
    (db : Nat → Nat → Option PolicyR) (max_edges : Nat) (invoice_pubkey : Nat)
    (pr : List HintEdge) : Option (List RouteEdge) :=
  match pr with
  | [] => none
  | e0 :: rest =>
    if max_edges < pr.length then none
    else
      match find_route e0.node_id with
      | none => none
      | some base =>
        some (base ++ append_private_hops db e0.node_id
          (rest.map HintEdge.node_id ++ [invoice_pubkey]) pr)

/-- The hint loop of `_create_route_from_invoice`: return the first hint
candidate that passes the sanity test; an insane candidate is logged,
reset to `None` and the next hint is tried. -/
def try_route_hints (find_route : Nat → Option (List RouteEdge))
    (db : Nat → Nat → Option PolicyR) (max_edges : Nat)
    (saneB : List RouteEdge → Bool) (invoice_pubkey : Nat) :
    List (List HintEdge) → Option (List RouteEdge)
  | [] => none
  | pr :: r_tags =>
    match build_hint_route find_route db max_edges invoice_pubkey pr with
    | none => try_route_hints find_route db max_edges saneB invoice_pubkey r_tags
    | some route =>
      if saneB route then some route
      else try_route_hints find_route db max_edges saneB invoice_pubkey r_tags

/-- `LNWallet._create_route_from_invoice`: try the (shuffled) private
route hints; if none yields a sane route, plan a direct route to the
payee, raising `PaymentFailure("No path found")` when there is no path or
the direct route is insane. `sane` is the out-of-scope
`is_route_sane_to_use(route, amount_msat, min_final_cltv_expiry)`.
The shuffle is a permutation, so `r_tags` stands for the shuffled order. -/
def create_route_from_invoice (find_route : Nat → Option (List RouteEdge))
    (db : Nat → Nat → Option PolicyR) (max_edges : Nat)
    (sane : List RouteEdge → Nat → Nat → Bool) (amount_msat min_final_cltv : Nat)
    (invoice_pubkey : Nat) (r_tags : List (List HintEdge)) :
    Except String (List RouteEdge) :=
  match try_route_hints find_route db max_edges
      (fun r => sane r amount_msat min_final_cltv) invoice_pubkey r_tags with
  | some route => Except.ok route
  | none =>
    match find_route invoice_pubkey with
    | none => Except.error "No path found"
    | some route =>
      if sane route amount_msat min_final_cltv then Except.ok route
      else Except.error "No path found"

/-! ## Payment execution (`_pay`) -/

/-- The exceptions `_pay` can raise. -/
inductive PayError
  | paymentFailure (msg : String)
  | invoiceError (msg : String)
  | unknownFirstChannel
  | indexError
deriving DecidableEq, Repr

/-- The externally visible actions of `_pay` (callbacks and the hand-off
of an HTLC to the peer). -/
inductive PayEvent
  | statusProgress (attempt : Nat)
  | peerPay (attempt : Nat)
deriving DecidableEq, Repr

/-- `LNWallet._pay_to_route` (state-relevant part): set the invoice status
to `INFLIGHT`, hand the route to the peer (`peer.pay` and the
`pending_payments` future are out of scope; `success` is the awaited
outcome), then set the status to `PAID` or back to `UNPAID`. The invoice
being `SENT`, `set_invoice_status` fires no `payment_received` here. -/
def pay_to_route (inv : InvStore) (payment_hash : Nat) (attempt : Nat) (success : Bool) :
    InvStore × List PayEvent :=
  let inv1 := (set_invoice_status inv payment_hash PRStatus.INFLIGHT).1
  let inv2 := (set_invoice_status inv1 payment_hash
    (if success then PRStatus.PAID else PRStatus.UNPAID)).1
  (inv2, [PayEvent.peerPay attempt])

/-- The attempt loop of `_pay`: for each attempt, build a fresh route
(`route_for i` abstracts `_create_route_from_invoice`, which may raise
`PaymentFailure`), require the first hop's SCID to resolve to one of our
channels (`chan_known` abstracts `get_channel_by_short_id`), fire the
progress callback, run `_pay_to_route` with outcome `outcome i`, and stop
on success. Returns the result, the final invoice store and the event
trace. -/
def pay_attempts (route_for : Nat → Except String (List RouteEdge))
    (chan_known : Nat → Bool) (outcome : Nat → Bool) (payment_hash : Nat) :
    Nat → Nat → InvStore → List PayEvent →
    Except PayError Bool × InvStore × List PayEvent
  | 0, _, inv, evts => (Except.ok false, inv, evts)
  | Nat.succ remaining, i, inv, evts =>
    match route_for i with
    | Except.error msg => (Except.error (PayError.paymentFailure msg), inv, evts)
    | Except.ok route =>
      match route with
      | [] => (Except.error PayError.indexError, inv, evts)
      | r0 :: _ =>
        if chan_known r0.short_channel_id then
          let evts1 := evts ++ [PayEvent.statusProgress i]
          let step := pay_to_route inv payment_hash i (outcome i)
          if outcome i then
            (Except.ok true, step.1, evts1 ++ step.2)
          else
            pay_attempts route_for chan_known outcome payment_hash
              remaining (i + 1) step.1 (evts1 ++ step.2)
        else
          (Except.error PayError.unknownFirstChannel, inv, evts)

/-- The `amount = int(lnaddr.amount * COIN) if lnaddr.amount else None`
conversion at the top of `_pay` (truthiness: a zero amount becomes
`None`). -/
def lnaddr_amount_or_none (amount : Option Nat) : Option Nat :=
  match amount with
  | some a => if a = 0 then none else some a
  | none => none

/-- `LNWallet._pay`: reject an already-`PAID` invoice; persist an
`(amount, SENT, UNPAID)` `InvoiceInfo`; validate via `_check_invoice`
(whose exception propagates after the info write); then run the attempt
loop. A raised exception does not roll state back, so the store and event
trace accompany the `Except` result. -/
def lnwallet_pay (inv : InvStore) (addr : LnAddrV) (payment_hash : Nat)
    (amount_sat : Option Nat) (attempts : Nat)
    (route_for : Nat → Except String (List RouteEdge))
    (chan_known : Nat → Bool) (outcome : Nat → Bool) :
    Except PayError Bool × InvStore × List PayEvent :=
  if get_invoice_status inv payment_hash = PRStatus.PAID then
    (Except.error (PayError.paymentFailure "This invoice has been paid already"), inv, [])
  else
    let info : InvoiceInfoR :=
      { amount := lnaddr_amount_or_none addr.amount
        direction := LNDirection.SENT
        status := PRStatus.UNPAID }
    let inv1 := save_invoice_info inv payment_hash info
    match check_invoice addr amount_sat with
    | Except.error e => (Except.error (PayError.invoiceError e), inv1, [])
    | Except.ok _ =>
      pay_attempts route_for chan_known outcome payment_hash attempts 0 inv1 []

/-! ## Sweeping a closed channel's outputs (`try_redeem`) -/

/-- The transaction produced by `SweepInfo.gen_tx()`; only its txid is
observed here. -/
structure TxR where
  txid : Nat
deriving DecidableEq, Repr

/-- The `SweepInfo` fields `try_redeem` reads. `cltv_expiry` and
`csv_delay` use `0` for a falsy (absent or zero) value, matching the
code's truthiness tests; `gen_tx` is the closure's result, `none` when
the sweep output is below dust. -/
structure SweepInfoR where
  name : String
  cltv_expiry : Nat
  csv_delay : Nat
  gen_tx : Option TxR
deriving DecidableEq, Repr

/-- The externally visible actions of `try_redeem`. -/
inductive RedeemEvent
  | set_label (txid : Nat) (name : String)
  | broadcast (txid : Nat)
  | add_future_tx (txid : Nat) (remaining : Int)
deriving DecidableEq, Repr

/-- `LNWallet.try_redeem`: decide whether the sweep is broadcastable now
(CLTV against `local_height`, CSV against the confirmations of the
previous tx), build the tx, label it, and either broadcast it or register
it as a future tx with the remaining wait. Faithful to the source, a
`None` result of `gen_tx()` is only logged, and the subsequent
`tx.txid()` call raises `AttributeError` (re-raised by the
`@log_exceptions` wrapper). Broadcast and `add_future_tx` failures are
swallowed, so only the attempts are recorded. -/
def try_redeem (local_height : Nat) (prev_conf : Nat) (sweep_info : SweepInfoR) :
    Except String (List RedeemEvent) :=
  let remaining1 : Option Int :=
    if sweep_info.cltv_expiry ≠ 0 then
      some ((sweep_info.cltv_expiry : Int) - (local_height : Int))
    else none
  let broadcast1 : Bool :=
    !(decide (sweep_info.cltv_expiry ≠ 0) &&
      decide ((0 : Int) < (sweep_info.cltv_expiry : Int) - (local_height : Int)))
  let remaining2 : Option Int :=
    if sweep_info.csv_delay ≠ 0 then
      some ((sweep_info.csv_delay : Int) - (prev_conf : Int))
    else remaining1
  let broadcast2 : Bool :=
    if decide (sweep_info.csv_delay ≠ 0) &&
        decide ((0 : Int) < (sweep_info.csv_delay : Int) - (prev_conf : Int)) then
      false
    else broadcast1
  match sweep_info.gen_tx with
  | none => Except.error "AttributeError: NoneType object has no attribute txid"
  | some tx =>
    let evts := [RedeemEvent.set_label tx.txid sweep_info.name]
    if broadcast2 then
      Except.ok (evts ++ [RedeemEvent.broadcast tx.txid])
    else
      match remaining2 with
      | some rem => Except.ok (evts ++ [RedeemEvent.add_future_tx tx.txid rem])
      | none => Except.error "NameError: remaining is not defined"

/-! ## Helper lemmas -/

/-- Every pair in `ainsert l k v` is either the inserted pair or was
already in `l`. -/
theorem mem_ainsert {κ α : Type} [DecidableEq κ] (k : κ) (v : α) :
    ∀ (l : List (κ × α)) (p : κ × α), p ∈ ainsert l k v → p = (k, v) ∨ p ∈ l := by
  intro l
  induction l with
  | nil =>
    intro p hp
    left
    simpa [ainsert] using hp
  | cons hd tl ih =>
    intro p hp
    obtain ⟨k', w⟩ := hd
    by_cases hk : k' = k
    · rw [ainsert, if_pos hk] at hp
      rcases List.mem_cons.mp hp with h | h
      · exact Or.inl h
      · exact Or.inr (List.mem_cons_of_mem _ h)
    · rw [ainsert, if_neg hk] at hp
      rcases List.mem_cons.mp hp with h | h
      · exact Or.inr (h ▸ List.mem_cons_self _ _)
      · rcases ih p h with h' | h'
        · exact Or.inl h'
        · exact Or.inr (List.mem_cons_of_mem _ h')

/-! ## Claim theorems -/

/-- C10: for a hex payment hash absent from the invoices map,
`delete_invoice` returns without raising and without modifying anything:
the invoices map is unchanged and no storage write is performed. -/
theorem c10_delete_invoice_missing_key_noop (st : InvWorkerState) (payment_hash_hex : Nat)
    (h : alookup st.invoices payment_hash_hex = none) :
    delete_invoice st payment_hash_hex = st := by
  unfold delete_invoice
  rw [h]

/-- Witness for C10 at a concrete state and a missing key. -/
theorem c10_witness :
    delete_invoice
      ⟨[(1, ⟨some 5, LNDirection.RECEIVED, PRStatus.UNPAID⟩)], []⟩ 2 =
      ⟨[(1, ⟨some 5, LNDirection.RECEIVED, PRStatus.UNPAID⟩)], []⟩ :=
  c10_delete_invoice_missing_key_noop _ 2 (by decide)

/-- C4: saving a channel whose remote config has
`next_per_commitment_point == current_per_commitment_point` raises, and on
that failure the channels map and the persisted channel list are left
unchanged. -/
theorem c4_save_channel_stale_point_fails (st : ChanWorkerState) (chan : ChannelR)
    (h : chan.remote_config.next_per_commitment_point =
      chan.remote_config.current_per_commitment_point) :
    (save_channel st chan).1 =
      Except.error
        "Tried to save channel with next_point == current_point, this should not happen" ∧
    (save_channel st chan).2 = st := by
  unfold save_channel
  rw [if_pos h]
  exact ⟨rfl, rfl⟩

/-- Witness for C4 at a concrete state and stale channel. -/
theorem c4_witness :
    (save_channel ⟨[], []⟩
      ⟨1, 2, ⟨7, 7⟩, ChanState.OPEN, none, none, 3, 0, 0⟩).2 = ⟨[], []⟩ :=
  (c4_save_channel_stale_point_fails ⟨[], []⟩
    ⟨1, 2, ⟨7, 7⟩, ChanState.OPEN, none, none, 3, 0, 0⟩ rfl).2

/-- C3: `save_preimage` fails unless `SHA-256(preimage) == payment_hash`,
so every pair reachable in the store hashes correctly: a successful write
implies the hash matches, and the store invariant is preserved. -/
theorem c3_preimage_store_integrity (sha256 : Bytes → Bytes) (store : PreimageStore)
    (payment_hash preimage : Bytes) :
    (∀ store2, save_preimage sha256 store payment_hash preimage = Except.ok store2 →
      sha256 preimage = payment_hash) ∧
    (preimage_invariant sha256 store →
      ∀ store2, save_preimage sha256 store payment_hash preimage = Except.ok store2 →
        preimage_invariant sha256 store2) := by
  constructor
  · intro store2 hok
    by_cases h : sha256 preimage = payment_hash
    · exact h
    · rw [save_preimage, if_neg h] at hok
      exact absurd hok (by simp)
  · intro hinv store2 hok
    by_cases h : sha256 preimage = payment_hash
    · rw [save_preimage, if_pos h] at hok
      cases hok
      intro p hp
      rcases mem_ainsert payment_hash preimage store p hp with rfl | hmem
      · exact h
      · exact hinv p hmem
    · rw [save_preimage, if_neg h] at hok
      exact absurd hok (by simp)

/-- Witness for C3: a successful write into the empty store yields a
store satisfying the invariant. -/
theorem c3_witness :
    preimage_invariant (fun b => b.map (· + 1)) [([2, 3], [1, 2])] :=
  (c3_preimage_store_integrity (fun b => b.map (· + 1)) [] [2, 3] [1, 2]).2
    (by intro p hp; cases hp) [([2, 3], [1, 2])] rfl

/-- C5 (code bug): when `sweep_info.gen_tx()` produces no transaction
(below dust), `try_redeem` does not complete normally: the missing early
return makes the subsequent `tx.txid()` call raise `AttributeError` on
`None`, so nothing is broadcast and no future tx is registered, but the
coroutine raises instead of returning. -/
theorem c5_try_redeem_dust_crashes (local_height prev_conf : Nat) (sweep_info : SweepInfoR)
    (h : sweep_info.gen_tx = none) :
    try_redeem local_height prev_conf sweep_info =
      Except.error "AttributeError: NoneType object has no attribute txid" := by
  simp only [try_redeem, h]

/-- Witness for C5 at a concrete dust sweep. -/
theorem c5_witness :
    try_redeem 100 0 ⟨"our_ctx", 0, 0, none⟩ =
      Except.error "AttributeError: NoneType object has no attribute txid" :=
  c5_try_redeem_dust_crashes 100 0 ⟨"our_ctx", 0, 0, none⟩ rfl

/-- C6 counterexample: the claim requires `payment_received` to fire only
when the invoice "newly became PAID (its status was not already PAID
before the call)", but the code fires it whenever the updated record has
direction `RECEIVED` and the status being set is `PAID` — also when the
stored status was already `PAID`. -/
theorem c6_counterexample :
    ¬ (∀ (inv : InvStore) (payment_hash : Nat) (status : PRStatus),
        (set_invoice_status inv payment_hash status).2.isSome = true →
          ∃ info, alookup inv payment_hash = some info ∧ info.status ≠ PRStatus.PAID) := by
  intro hclaim
  obtain ⟨info, hinfo, hne⟩ :=
    hclaim [(0, ⟨none, LNDirection.RECEIVED, PRStatus.PAID⟩)] 0 PRStatus.PAID (by decide)
  have heq : (⟨none, LNDirection.RECEIVED, PRStatus.PAID⟩ : InvoiceInfoR) = info := by
    simpa [alookup] using hinfo
  exact hne (by rw [← heq])

/-- C6 (amended): `set_invoice_status` fires `payment_received` iff the
invoice existed in the store, its direction is `RECEIVED`, and the status
being set is `PAID` (regardless of the previous status); for an unknown
payment hash the call is a silent no-op. -/
theorem c6_payment_received_iff (inv : InvStore) (payment_hash : Nat) (status : PRStatus) :
    ((set_invoice_status inv payment_hash status).2.isSome = true ↔
      ∃ info, alookup inv payment_hash = some info ∧
        info.direction = LNDirection.RECEIVED ∧ status = PRStatus.PAID) ∧
    (alookup inv payment_hash = none →
      set_invoice_status inv payment_hash status = (inv, none)) := by
  cases hl : alookup inv payment_hash with
  | none =>
    refine ⟨?_, fun _ => by simp [set_invoice_status, hl]⟩
    simp [set_invoice_status, hl]
  | some info =>
    refine ⟨?_, fun hcontra => absurd hcontra (by simp)⟩
    by_cases hd : info.direction = LNDirection.RECEIVED ∧ status = PRStatus.PAID
    · simp [set_invoice_status, hl, hd]
    · simp only [set_invoice_status, hl]
      rw [if_neg (by simpa using hd)]
      simp [hd]

/-- Witness for C6: applying the amended theorem at a stored `RECEIVED`
invoice being set to `PAID` fires the notification. -/
theorem c6_witness :
    (set_invoice_status [(4, ⟨some 9, LNDirection.RECEIVED, PRStatus.UNPAID⟩)]
      4 PRStatus.PAID).2.isSome = true :=
  (c6_payment_received_iff [(4, ⟨some 9, LNDirection.RECEIVED, PRStatus.UNPAID⟩)]
      4 PRStatus.PAID).1.mpr
    ⟨⟨some 9, LNDirection.RECEIVED, PRStatus.UNPAID⟩, by decide, rfl, rfl⟩

/-- C9: `_check_invoice` raises `InvoiceError` iff the invoice is expired,
or the amount is missing after a (truthy) caller-supplied `amount_sat` has
been substituted for the invoice amount, or `min_final_cltv_expiry`
exceeds `60 * 144`; otherwise it returns the decoded (substituted)
address. -/
theorem c9_check_invoice_iff (addr : LnAddrV) (amount_sat : Option Nat) :
    ((∃ e, check_invoice addr amount_sat = Except.error e) ↔
      (addr.is_expired = true ∨ substituted_amount addr amount_sat = none ∨
        60 * 144 < addr.min_final_cltv_expiry)) ∧
    (¬ (addr.is_expired = true ∨ substituted_amount addr amount_sat = none ∨
        60 * 144 < addr.min_final_cltv_expiry) →
      check_invoice addr amount_sat =
        Except.ok { addr with amount := substituted_amount addr amount_sat }) := by
  by_cases he : addr.is_expired
  · constructor
    · simp [check_invoice, he]
    · intro hgood
      exact absurd (Or.inl he) hgood
  · by_cases ha : substituted_amount addr amount_sat = none
    · constructor
      · simp [check_invoice, he, ha]
      · intro hgood
        exact absurd (Or.inr (Or.inl ha)) hgood
    · by_cases hc : 60 * 144 < addr.min_final_cltv_expiry
      · constructor
        · simp [check_invoice, he, ha, hc]
        · intro hgood
          exact absurd (Or.inr (Or.inr hc)) hgood
      · constructor
        · simp [check_invoice, he, ha, hc]
        · intro _
          simp [check_invoice, he, ha, hc]

/-- Witness for C9: a live invoice with an amount and a reasonable
`min_final_cltv_expiry` is accepted unchanged. -/
theorem c9_witness :
    check_invoice ⟨false, some 100000, 144⟩ none =
      Except.ok ⟨false, some 100000, 144⟩ :=
  (c9_check_invoice_iff ⟨false, some 100000, 144⟩ none).2 (by decide)

/-- C2: for an invoice whose stored status is already `PAID`, `_pay`
raises `PaymentFailure "This invoice has been paid already"` before
attempting any payment (empty event trace) and before writing any new
`InvoiceInfo` (the store is returned unchanged). -/
theorem c2_pay_rejects_paid_invoice (inv : InvStore) (addr : LnAddrV) (payment_hash : Nat)
    (amount_sat : Option Nat) (attempts : Nat)
    (route_for : Nat → Except String (List RouteEdge))
    (chan_known : Nat → Bool) (outcome : Nat → Bool)
    (h : get_invoice_status inv payment_hash = PRStatus.PAID) :
    lnwallet_pay inv addr payment_hash amount_sat attempts route_for chan_known outcome =
      (Except.error (PayError.paymentFailure "This invoice has been paid already"),
        inv, []) := by
  unfold lnwallet_pay
  rw [if_pos h]

/-- Witness for C2 at a concrete store holding a `PAID` invoice. -/
theorem c2_witness :
    lnwallet_pay [(7, ⟨some 1, LNDirection.SENT, PRStatus.PAID⟩)] ⟨false, some 1, 9⟩ 7
      none 1 (fun _ => Except.error "No path found") (fun _ => false) (fun _ => false) =
      (Except.error (PayError.paymentFailure "This invoice has been paid already"),
        [(7, ⟨some 1, LNDirection.SENT, PRStatus.PAID⟩)], []) :=
  c2_pay_rejects_paid_invoice [(7, ⟨some 1, LNDirection.SENT, PRStatus.PAID⟩)]
    ⟨false, some 1, 9⟩ 7 none 1 (fun _ => Except.error "No path found")
    (fun _ => false) (fun _ => false) (by decide)

/-- The hint predicate agrees with the source's two `continue` tests:
state `OPEN` and not `insufficient_balance`. -/
theorem hint_pred_eq_state_balance (amount_sat : Option Nat) (chan : ChannelR) :
    hint_pred amount_sat chan =
      (decide (chan.state = ChanState.OPEN) && !insufficient_balance amount_sat chan) := by
  unfold hint_pred insufficient_balance
  cases amount_sat with
  | none => simp
  | some a =>
    by_cases h0 : a = 0
    · subst h0
      simp
    · rcases Nat.lt_or_ge (chan.balance_remote_msat / 1000) a with hx | hx
      · simp [h0, hx, Nat.not_le.mpr hx]
      · simp [h0, Nat.not_lt.mpr hx, hx]

/-- The hint loop of `_calc_routing_hints_for_invoice` is the filter of the
channel list by `hint_pred` mapped through `hint_for_channel`, provided
every qualifying channel has a short channel id (the source asserts it). -/
theorem calc_hints_eq_filter_map (db : ChannelDBView) (amount_sat : Option Nat) :
    ∀ channels : List ChannelR,
      (∀ chan ∈ channels, hint_pred amount_sat chan = true →
        chan.short_channel_id.isSome = true) →
      calc_routing_hints_for_invoice db amount_sat channels =
        Except.ok ((channels.filter (hint_pred amount_sat)).map
          (fun chan => hint_for_channel db chan (chan.short_channel_id.getD ⟨0, 0, 0⟩))) := by
  intro channels
  induction channels with
  | nil =>
    intro _
    simp [calc_routing_hints_for_invoice]
  | cons chan rest ih =>
    intro hscid
    have hrest := ih (fun c hc hp => hscid c (List.mem_cons_of_mem _ hc) hp)
    by_cases hopen : chan.state = ChanState.OPEN
    · by_cases hbal : insufficient_balance amount_sat chan = true
      · have hpred : hint_pred amount_sat chan = false := by
          rw [hint_pred_eq_state_balance]
          simp [hbal]
        simp only [calc_routing_hints_for_invoice]
        rw [if_neg (by simp [hopen]), if_pos hbal, hrest, List.filter_cons, hpred]
        simp
      · have hpred : hint_pred amount_sat chan = true := by
          rw [hint_pred_eq_state_balance]
          simp [hopen, hbal]
        obtain ⟨scid, hsome⟩ := Option.isSome_iff_exists.mp
          (hscid chan (List.mem_cons_self _ _) hpred)
        simp only [calc_routing_hints_for_invoice]
        rw [if_neg (by simp [hopen]), if_neg (by simp [hbal]), hsome, hrest,
          List.filter_cons, hpred]
        simp [hsome]
    · have hpred : hint_pred amount_sat chan = false := by
        rw [hint_pred_eq_state_balance]
        simp [hopen]
      simp only [calc_routing_hints_for_invoice]
      rw [if_pos (by simp [hopen]), hrest, List.filter_cons, hpred]
      simp

/-- C8: `_calc_routing_hints_for_invoice(amount_sat)` emits exactly one
hint per channel that is `OPEN` and (when an amount is given) has remote
balance `// 1000` at least `amount_sat`, in list order; channels in any
other state (or with insufficient balance) yield no hint; and when the
channel DB has no stored policy for the channel, the hint's fee/expiry
fields are the fallback `(0, 0, 1)`. -/
theorem c8_routing_hints (db : ChannelDBView) (amount_sat : Option Nat)
    (channels : List ChannelR)
    (hscid : ∀ chan ∈ channels, hint_pred amount_sat chan = true →
      chan.short_channel_id.isSome = true) :
    calc_routing_hints_for_invoice db amount_sat channels =
      Except.ok ((channels.filter (hint_pred amount_sat)).map
        (fun chan => hint_for_channel db chan (chan.short_channel_id.getD ⟨0, 0, 0⟩))) ∧
    (∀ (chan : ChannelR) (chan_id : SCIDR),
      (match db.get_channel_info chan_id with
       | none => True
       | some info => db.get_policy_for_node info.short_channel_id chan.node_id = none) →
      hint_for_channel db chan chan_id =
        { node_id := chan.node_id, short_channel_id := chan_id, fee_base_msat := 0,
          fee_proportional_millionths := 0, cltv_expiry_delta := 1 }) := by
  constructor
  · exact calc_hints_eq_filter_map db amount_sat channels hscid
  · intro chan chan_id h
    unfold hint_for_channel
    cases hinfo : db.get_channel_info chan_id with
    | none => simp [hinfo]
    | some info =>
      rw [hinfo] at h
      simp [hinfo, h]

/-- Witness for C8, matching scenario S6: one `OPEN` channel with
200k sat remote balance and one `OPENING` channel; an invoice for
100k sat gets exactly one hint, for the `OPEN` channel, with the fallback
fee fields. -/
theorem c8_witness :
    calc_routing_hints_for_invoice ⟨fun _ => none, fun _ _ => none⟩ (some 100000)
      [⟨1, 99, ⟨1, 2⟩, ChanState.OPEN, some ⟨7, 2, 3⟩, none, 3, 0, 200000000⟩,
       ⟨2, 98, ⟨1, 2⟩, ChanState.OPENING, none, none, 3, 0, 500000000⟩] =
      Except.ok [⟨99, ⟨7, 2, 3⟩, 0, 0, 1⟩] := by
  simpa using (c8_routing_hints ⟨fun _ => none, fun _ _ => none⟩ (some 100000)
    [⟨1, 99, ⟨1, 2⟩, ChanState.OPEN, some ⟨7, 2, 3⟩, none, 3, 0, 200000000⟩,
     ⟨2, 98, ⟨1, 2⟩, ChanState.OPENING, none, none, 3, 0, 500000000⟩]
    (by decide)).1

/-- C7: `save_short_chan_id` commits the channel's short channel id
(making it non-null, equal to the predicted SCID) and persists the
channel iff `conf ≥ funding_txn_minimum_depth > 0`; when
`0 < conf < funding_txn_minimum_depth` only the predicted SCID is set and
`short_channel_id` stays `None` with no persist; and the
`on_network_update` step never touches an already-set short channel id.
Hypotheses: the remote per-commitment points differ (else `save_channel`
would raise), the watcher reports a valid tx position, and the channel
has no SCID yet (the only state in which the driver calls this). -/
theorem c7_short_channel_id (w : WatcherView) (st : ChanWorkerState) (chan : ChannelR)
    (hpoint : chan.remote_config.next_per_commitment_point ≠
      chan.remote_config.current_per_commitment_point)
    (hpos : 0 ≤ w.tx_pos)
    (hnone : chan.short_channel_id = none) :
    ((∃ chan2 st2, save_short_chan_id w st chan = Except.ok (chan2, st2, true) ∧
        chan2.short_channel_id = some (predicted_scid w chan)) ↔
      (chan.funding_txn_minimum_depth ≤ w.conf ∧ 0 < chan.funding_txn_minimum_depth)) ∧
    (0 < w.conf → w.conf < chan.funding_txn_minimum_depth →
      save_short_chan_id w st chan = Except.ok (predicted_chan w chan, st, false) ∧
      (predicted_chan w chan).short_channel_id = none) ∧
    (∀ (chan2 : ChannelR) (s : SCIDR), chan2.short_channel_id = some s →
      scid_update_step w st chan2 = Except.ok (chan2, st)) := by
  refine ⟨?_, ?_, ?_⟩
  · by_cases hdep : chan.funding_txn_minimum_depth ≤ w.conf ∧ 0 < chan.funding_txn_minimum_depth
    · have hconf : 0 < w.conf := lt_of_lt_of_le hdep.2 hdep.1
      have heval : save_short_chan_id w st chan =
          Except.ok (committed_chan w chan, committed_state w st chan, true) := by
        simp [save_short_chan_id, save_channel, committed_chan, committed_state,
          hconf, hpos, hdep, hpoint]
      constructor
      · intro _
        exact hdep
      · intro _
        exact ⟨_, _, heval, rfl⟩
    · constructor
      · intro hex
        obtain ⟨chan2, st2, hok, _⟩ := hex
        exfalso
        by_cases hconf : 0 < w.conf
        · have heval : save_short_chan_id w st chan =
              Except.ok (predicted_chan w chan, st, false) := by
            simp [save_short_chan_id, predicted_chan, hconf, hpos, hdep]
          rw [heval] at hok
          simp [Prod.ext_iff] at hok
        · have heval : save_short_chan_id w st chan = Except.ok (chan, st, false) := by
            simp [save_short_chan_id, hconf, hdep]
          rw [heval] at hok
          simp [Prod.ext_iff] at hok
      · intro h
        exact absurd h hdep
  · intro hconf hlt
    have hdep : ¬ (chan.funding_txn_minimum_depth ≤ w.conf ∧
        0 < chan.funding_txn_minimum_depth) := by
      intro hd
      exact absurd hd.1 (Nat.not_le.mpr hlt)
    constructor
    · simp [save_short_chan_id, predicted_chan, hconf, hpos, hdep]
    · simpa [predicted_chan] using hnone
  · intro chan2 s hs
    unfold scid_update_step
    rw [if_neg (by simp [hs])]

/-- Witness for C7: with the funding tx at depth 5 and a minimum depth of
9, only the predicted SCID is recorded and nothing is persisted. -/
theorem c7_witness :
    save_short_chan_id ⟨5, 100, 2⟩ ⟨[], []⟩
      ⟨1, 9, ⟨3, 4⟩, ChanState.OPENING, none, none, 9, 1, 0⟩ =
      Except.ok
        (⟨1, 9, ⟨3, 4⟩, ChanState.OPENING, none, some ⟨100, 2, 1⟩, 9, 1, 0⟩,
         ⟨[], []⟩, false) :=
  ((c7_short_channel_id ⟨5, 100, 2⟩ ⟨[], []⟩
    ⟨1, 9, ⟨3, 4⟩, ChanState.OPENING, none, none, 9, 1, 0⟩
    (by decide) (by decide) rfl).2.1 (by decide) (by decide)).1

/-- A route returned by the hint loop passed the sanity test. -/
theorem try_route_hints_sane (find_route : Nat → Option (List RouteEdge))
    (db : Nat → Nat → Option PolicyR) (max_edges : Nat)
    (saneB : List RouteEdge → Bool) (invoice_pubkey : Nat) :
    ∀ (r_tags : List (List HintEdge)) (route : List RouteEdge),
      try_route_hints find_route db max_edges saneB invoice_pubkey r_tags = some route →
      saneB route = true := by
  intro r_tags
  induction r_tags with
  | nil =>
    intro route h
    simp [try_route_hints] at h
  | cons pr rest ih =>
    intro route h
    unfold try_route_hints at h
    cases hb : build_hint_route find_route db max_edges invoice_pubkey pr with
    | none =>
      simp only [hb] at h
      exact ih route h
    | some cand =>
      simp only [hb] at h
      cases hs : saneB cand with
      | false =>
        simp only [hs, Bool.false_eq_true, if_false] at h
        exact ih route h
      | true =>
        simp only [hs, if_true] at h
        cases h
        exact hs

/-- When no hint yields a sane route, the hint loop yields nothing. -/
theorem try_route_hints_none (find_route : Nat → Option (List RouteEdge))
    (db : Nat → Nat → Option PolicyR) (max_edges : Nat)
    (saneB : List RouteEdge → Bool) (invoice_pubkey : Nat) :
    ∀ r_tags : List (List HintEdge),
      (∀ pr ∈ r_tags, ∀ route,
        build_hint_route find_route db max_edges invoice_pubkey pr = some route →
        saneB route = false) →
      try_route_hints find_route db max_edges saneB invoice_pubkey r_tags = none := by
  intro r_tags
  induction r_tags with
  | nil =>
    intro _
    simp [try_route_hints]
  | cons pr rest ih =>
    intro hall
    have hrest := ih (fun p hp route hb => hall p (List.mem_cons_of_mem _ hp) route hb)
    unfold try_route_hints
    cases hb : build_hint_route find_route db max_edges invoice_pubkey pr with
    | none =>
      simpa only [hb] using hrest
    | some cand =>
      simp only [hb, hall pr (List.mem_cons_self _ _) cand hb, Bool.false_eq_true, if_false]
      exact hrest

/-- C1: every route returned by `_create_route_from_invoice` satisfies
`is_route_sane_to_use(route, amount_msat, min_final_cltv_expiry)`; and if
neither any private-hint route nor a direct route to the payee passes that
sanity check, the call raises `PaymentFailure "No path found"` instead of
returning a route. -/
theorem c1_route_sanity (find_route : Nat → Option (List RouteEdge))
    (db : Nat → Nat → Option PolicyR) (max_edges : Nat)
    (sane : List RouteEdge → Nat → Nat → Bool) (amount_msat min_final_cltv : Nat)
    (invoice_pubkey : Nat) (r_tags : List (List HintEdge)) :
    (∀ route,
      create_route_from_invoice find_route db max_edges sane amount_msat min_final_cltv
        invoice_pubkey r_tags = Except.ok route →
      sane route amount_msat min_final_cltv = true) ∧
    ((∀ pr ∈ r_tags, ∀ route,
        build_hint_route find_route db max_edges invoice_pubkey pr = some route →
        sane route amount_msat min_final_cltv = false) →
      (∀ route, find_route invoice_pubkey = some route →
        sane route amount_msat min_final_cltv = false) →
      create_route_from_invoice find_route db max_edges sane amount_msat min_final_cltv
        invoice_pubkey r_tags = Except.error "No path found") := by
  constructor
  · intro route h
    unfold create_route_from_invoice at h
    cases ht : try_route_hints find_route db max_edges
        (fun r => sane r amount_msat min_final_cltv) invoice_pubkey r_tags with
    | some cand =>
      simp only [ht] at h
      cases h
      exact try_route_hints_sane find_route db max_edges _ invoice_pubkey r_tags route ht
    | none =>
      simp only [ht] at h
      cases hf : find_route invoice_pubkey with
      | none =>
        simp only [hf] at h
        cases h
      | some direct =>
        simp only [hf] at h
        cases hs : sane direct amount_msat min_final_cltv with
        | false =>
          simp only [hs, Bool.false_eq_true, if_false] at h
          cases h
        | true =>
          simp only [hs, if_true] at h
          cases h
          exact hs
  · intro hhints hdirect
    unfold create_route_from_invoice
    rw [try_route_hints_none find_route db max_edges _ invoice_pubkey r_tags hhints]
    cases hf : find_route invoice_pubkey with
    | none =>
      simp only [hf]
    | some direct =>
      simp only [hf, hdirect direct hf, Bool.false_eq_true, if_false]

/-- Witness for C1: with a sanity predicate that rejects every route, the
call fails with "No path found" even though a direct path exists. -/
theorem c1_witness :
    create_route_from_invoice (fun _ => some [⟨5, 6, 0, 0, 9⟩]) (fun _ _ => none) 20
      (fun _ _ _ => false) 1000 144 5 [] = Except.error "No path found" :=
  (c1_route_sanity (fun _ => some [⟨5, 6, 0, 0, 9⟩]) (fun _ _ => none) 20
    (fun _ _ _ => false) 1000 144 5 []).2
    (by intro pr hpr; cases hpr) (fun _ _ => rfl)

end ElectrumLN
